import Mathlib

/-!
Verification development for the LXDMXEthernet example sketch
`src/examples/DMXOutputUsingUSART/DMXOutputUsingUSART.ino`.

The sketch bridges Art-Net / sACN network packets to a 512-slot DMX
channel buffer driven out over the USART.  The collaborator classes
(LXArtNet, LXSACN, LXSerialDMX) live outside this repository; the
operations the sketch invokes on them are modelled from the spec and
marked as such in their doc comments.  Everything else is a direct
shallow embedding of the sketch's `setup()` and `loop()`.
-/

namespace LXDMXBridge

/-- Modelled from the spec: the distinguished outcome code returned by
`readDMXPacket` when a valid DMX packet for the target universe was
decoded (the `RESULT_DMX_RECEIVED` constant of the LXDMXEthernet
header, which is not part of this repository's sources).  Only
equality with this code is ever tested by the sketch. -/
def RESULT_DMX_RECEIVED : Nat := 1

/-- Arduino `LOW` pin state, represented as `false`. -/
def LOW : Bool := false

/-- Arduino `HIGH` pin state, represented as `true`. -/
def HIGH : Bool := true

/-- One observation of the receive interface during a loop iteration:
the outcome code returned by `interface->readDMXPacket(&eUDP)`, the
value of `interface->numberOfSlots()`, and `interface->getSlot(i)` as
a function of the slot index `i`. -/
structure PacketRead where
  result : Nat
  slots : Nat
  level : Nat → Nat

/-- The sketch state the reception loop mutates: the Serial DMX
Transmitter's channel buffer (slots 1..512 are meaningful) and the
`monitorstate` global backing the status LED. -/
structure SketchState where
  dmx : Nat → Nat
  monitorstate : Bool

/-- Modelled from the spec: the Serial DMX Transmitter collaborator's
`setSlot(index, value)` updates one slot of the 512-slot frame buffer;
per the spec an index outside [1,512] must never write out of the
512-element range and is a defined no-op (LXSerialDMX is not part of
this repository's sources). -/
def setSlot (buf : Nat → Nat) (i v : Nat) : Nat → Nat :=
  fun j => if 1 ≤ i ∧ i ≤ 512 ∧ j = i then v else buf j

/-- Channel buffer after the first `n` iterations of the sketch's copy
loop `for (int i = 1; i <= interface->numberOfSlots(); i++)
LXSerialDMX.setSlot(i, interface->getSlot(i));` -/
def copyUpTo (p : PacketRead) (buf : Nat → Nat) : Nat → (Nat → Nat)
  | 0 => buf
  | n + 1 => setSlot (copyUpTo p buf n) (n + 1) (p.level (n + 1))

/-- Channel buffer after the sketch's copy loop runs to completion,
with the loop bound `interface->numberOfSlots()`. -/
def copySlots (p : PacketRead) (buf : Nat → Nat) : Nat → Nat :=
  copyUpTo p buf p.slots

/-- The ordered trace of `setSlot(index, value)` invocations the copy
loop performs, starting at index `i` with `k` iterations remaining. -/
def setSlotCallsFrom (p : PacketRead) : Nat → Nat → List (Nat × Nat)
  | _, 0 => []
  | i, k + 1 => (i, p.level i) :: setSlotCallsFrom p (i + 1) k

/-- The full ordered trace of `setSlot` invocations of the copy loop:
indices start at 1 and run for `numberOfSlots()` iterations. -/
def setSlotCalls (p : PacketRead) : List (Nat × Nat) :=
  setSlotCallsFrom p 1 p.slots

/-- The sketch's `blinkLED()`: toggles `monitorstate` between LOW and
HIGH (the `digitalWrite` to the monitor pin mirrors the returned
state). -/
def blinkLED (monitorstate : Bool) : Bool :=
  if monitorstate = LOW then HIGH else LOW

/-- Observable effects of one loop iteration: the ordered list of
`setSlot` calls forwarded to the transmitter and the number of
`blinkLED` invocations. -/
structure LoopEffects where
  calls : List (Nat × Nat)
  blinks : Nat

/-- The packet-handling tail of the sketch's `loop()`: if the read
outcome equals `RESULT_DMX_RECEIVED`, copy slots `1..numberOfSlots()`
into the transmitter buffer and call `blinkLED()`; otherwise do
nothing.  Returns the new state together with the effect trace. -/
def loopPacketStep (p : PacketRead) (s : SketchState) :
    SketchState × LoopEffects :=
  if p.result = RESULT_DMX_RECEIVED then
    (⟨copySlots p s.dmx, blinkLED s.monitorstate⟩, ⟨setSlotCalls p, 1⟩)
  else
    (s, ⟨[], 0⟩)

/-- Local network information reported by the Ethernet library
(`Ethernet.localIP()` and `Ethernet.subnetMask()`), abstracted. -/
structure NetInfo where
  localIP : Nat
  subnetMask : Nat

/-- The protocol session the sketch constructs in `setup()`: an
LXArtNet instance carrying local-address fields used by its poll-reply
logic, or an LXSACN instance which has no such fields. -/
inductive Session where
  | artnet (localIP : Nat) (subnetMask : Nat) : Session
  | sacn : Session
deriving DecidableEq

/-- Modelled from the spec: `LXArtNet::setLocalIP(ip, mask)` updates
the protocol session's local-address and subnet fields used in its
poll-reply logic (LXArtNet is not part of this repository's sources).
The sketch only ever invokes it through an LXArtNet cast guarded by
`!USE_SACN`. -/
def setLocalIP (sess : Session) (ip mask : Nat) : Session :=
  match sess with
  | .artnet _ _ => .artnet ip mask
  | .sacn => .sacn

/-- The DHCP-maintenance head of the sketch's `loop()`: under
`USE_DHCP`, call `Ethernet.maintain()`; when it returns 4 (rebind
success) or 2 (renew success) and `USE_SACN` is off, reconfigure the
Art-Net session's local address from the Ethernet library. -/
def dhcpMaintainStep (useDHCP useSACN : Bool) (dhcpr : Nat)
    (net : NetInfo) (sess : Session) : Session :=
  if useDHCP then
    if dhcpr = 4 ∨ dhcpr = 2 then
      if useSACN then sess
      else setLocalIP sess net.localIP net.subnetMask
    else sess
  else sess

/-- One full iteration of the sketch's `loop()`: the DHCP maintenance
step followed by the packet-handling step. -/
def loopIteration (useDHCP useSACN : Bool) (dhcpr : Nat) (net : NetInfo)
    (p : PacketRead) (sess : Session) (s : SketchState) :
    Session × SketchState × LoopEffects :=
  (dhcpMaintainStep useDHCP useSACN dhcpr net sess, loopPacketStep p s)

/-- An Art-Net poll reply, abstracted to the node name it carries. -/
structure PollReply where
  nodeName : String
deriving DecidableEq

/-- Modelled from the spec: `setNodeName` followed by
`send_art_poll_reply` emits one poll reply carrying the configured
node name (LXArtNet is not part of this repository's sources).  The
sketch's `setup()` performs that pair exactly once, in the
`!USE_SACN` branch only; this is the list of poll replies `setup()`
sends. -/
def setupPollReplies (useSACN : Bool) : List PollReply :=
  if useSACN then [] else [⟨"ArtNet2USART"⟩]

/-- The initial value of the `use_multicast` global: `USE_SACN` when
`USE_MULTICAST` is compiled in, 0 otherwise. -/
def use_multicast_initial (useMulticastCompiled useSACN : Bool) : Bool :=
  if useMulticastCompiled then useSACN else false

/-- The value of `use_multicast` after the interface-construction step
of `setup()`: the Art-Net branch forcibly assigns `use_multicast = 0`;
the sACN branch leaves the initial value. -/
def use_multicast_postSetup (useMulticastCompiled useSACN : Bool) : Bool :=
  if useSACN then use_multicast_initial useMulticastCompiled useSACN
  else false

/-- How `setup()` opens the UDP socket. -/
inductive SocketMode where
  | multicast
  | unicast
  | noSocket
deriving DecidableEq

/-- The socket-opening step of `setup()`: if `use_multicast` is set,
`beginMulticast` runs only when `USE_MULTICAST` is compiled in (the
branch body is empty otherwise); else `begin` opens a unicast or
broadcast socket. -/
def setupSocketMode (useMulticastCompiled useSACN : Bool) : SocketMode :=
  if use_multicast_postSetup useMulticastCompiled useSACN then
    if useMulticastCompiled then SocketMode.multicast
    else SocketMode.noSocket
  else SocketMode.unicast

/-- Concrete DMX packet read used by witnesses: outcome
`RESULT_DMX_RECEIVED`, 3 slots, level of slot `j` equal to `j + 10`. -/
def pW : PacketRead := ⟨1, 3, fun j => j + 10⟩

/-- Concrete non-DMX packet read used by witnesses: outcome 0. -/
def pW0 : PacketRead := ⟨0, 5, fun _ => 9⟩

/-- Concrete packet read whose decoder reports 513 slots, used by the
out-of-range counterexample. -/
def pBig : PacketRead := ⟨1, 513, fun _ => 7⟩

/-- Concrete sketch state used by witnesses: all slots 0, LED LOW. -/
def sW : SketchState := ⟨fun _ => 0, false⟩

theorem copyUpTo_apply (p : PacketRead) (buf : Nat → Nat) (n j : Nat) :
    copyUpTo p buf n j =
      if 1 ≤ j ∧ j ≤ n ∧ j ≤ 512 then p.level j else buf j := by
  induction n with
  | zero =>
    rw [if_neg (by omega)]
    rfl
  | succ n ih =>
    simp only [copyUpTo, setSlot, ih]
    by_cases hj : 1 ≤ n + 1 ∧ n + 1 ≤ 512 ∧ j = n + 1
    · rw [if_pos hj, if_pos (by omega)]
      have hj2 : j = n + 1 := hj.2.2
      rw [hj2]
    · rw [if_neg hj]
      by_cases hc : 1 ≤ j ∧ j ≤ n ∧ j ≤ 512
      · rw [if_pos hc, if_pos (by omega)]
      · rw [if_neg hc, if_neg (by omega)]

theorem setSlotCallsFrom_map_fst (p : PacketRead) (k : Nat) :
    ∀ i : Nat, (setSlotCallsFrom p i k).map Prod.fst = List.range' i k := by
  induction k with
  | zero => intro i; rfl
  | succ k ih =>
    intro i
    simp only [setSlotCallsFrom, List.map_cons, ih (i + 1), List.range'_succ]

theorem mem_setSlotCallsFrom (p : PacketRead) (k : Nat) :
    ∀ (i : Nat) (c : Nat × Nat),
      c ∈ setSlotCallsFrom p i k ↔
        i ≤ c.1 ∧ c.1 < i + k ∧ c.2 = p.level c.1 := by
  induction k with
  | zero =>
    intro i c
    simp only [setSlotCallsFrom, List.not_mem_nil, false_iff]
    rintro ⟨h1, h2, h3⟩
    omega
  | succ k ih =>
    intro i c
    simp only [setSlotCallsFrom, List.mem_cons, ih (i + 1) c, Prod.ext_iff]
    constructor
    · rintro (⟨h1, h2⟩ | ⟨h1, h2, h3⟩)
      · exact ⟨by omega, by omega, by rw [h2, h1]⟩
      · exact ⟨by omega, by omega, h3⟩
    · rintro ⟨h1, h2, h3⟩
      by_cases hc : c.1 = i
      · exact Or.inl ⟨hc, by rw [h3, hc]⟩
      · exact Or.inr ⟨by omega, by omega, h3⟩

theorem copySlots_idem (p : PacketRead) (buf : Nat → Nat) :
    copySlots p (copySlots p buf) = copySlots p buf := by
  funext j
  simp only [copySlots, copyUpTo_apply]
  by_cases hc : 1 ≤ j ∧ j ≤ p.slots ∧ j ≤ 512 <;> simp [hc]

/-- C1: for every processed packet classified as DMXReceived with slot
count N (1 <= N <= 512) matching the target universe, after the copy
step, Channel Buffer slots 1..N equal the packet's levels and slots
N+1..512 retain the values they had before the packet was processed
(last-value-held, not zero-fill). -/
theorem dmx_received_copy_last_value_held (p : PacketRead)
    (s : SketchState) (hres : p.result = RESULT_DMX_RECEIVED)
    (hlo : 1 ≤ p.slots) (hhi : p.slots ≤ 512) :
    (∀ j, 1 ≤ j → j ≤ p.slots →
      (loopPacketStep p s).1.dmx j = p.level j) ∧
    (∀ j, p.slots < j → j ≤ 512 →
      (loopPacketStep p s).1.dmx j = s.dmx j) := by
  have hd : (loopPacketStep p s).1.dmx = copySlots p s.dmx := by
    simp [loopPacketStep, hres]
  constructor
  · intro j h1 h2
    rw [hd, copySlots, copyUpTo_apply, if_pos (by omega)]
  · intro j h1 h2
    rw [hd, copySlots, copyUpTo_apply, if_neg (by omega)]

theorem dmx_received_copy_last_value_held_witness :
    (∀ j, 1 ≤ j → j ≤ pW.slots →
      (loopPacketStep pW sW).1.dmx j = pW.level j) ∧
    (∀ j, pW.slots < j → j ≤ 512 →
      (loopPacketStep pW sW).1.dmx j = sW.dmx j) :=
  dmx_received_copy_last_value_held pW sW rfl (by decide) (by decide)

/-- C2: for every loop iteration whose readDMXPacket outcome is not
DMXReceived, no slot of the Channel Buffer is written, no setSlot
call is forwarded, and the Status Indicator is not toggled; the step
returns normally with the state unchanged (no fault is raised). -/
theorem non_dmx_outcome_is_noop (p : PacketRead) (s : SketchState)
    (h : p.result ≠ RESULT_DMX_RECEIVED) :
    (loopPacketStep p s).1 = s ∧
    (loopPacketStep p s).2.calls = [] ∧
    (loopPacketStep p s).2.blinks = 0 := by
  simp [loopPacketStep, h]

theorem non_dmx_outcome_is_noop_witness :
    (loopPacketStep pW0 sW).1 = sW ∧
    (loopPacketStep pW0 sW).2.calls = [] ∧
    (loopPacketStep pW0 sW).2.blinks = 0 :=
  non_dmx_outcome_is_noop pW0 sW (by decide)

/-- C3 counterexample: for the concrete DMX-classified packet `pBig`
whose decoder reports 513 slots, the reception loop forwards the
out-of-range index 513 to the transmitter's setSlot, so the loop does
not keep forwarded indices inside [1,512] when numberOfSlots() is
out of range. -/
theorem out_of_range_count_forwarded_cex :
    (513, 7) ∈ (loopPacketStep pBig sW).2.calls ∧ 512 < 513 := by
  constructor
  · have h : (loopPacketStep pBig sW).2.calls = setSlotCalls pBig := by
      simp [loopPacketStep, pBig, RESULT_DMX_RECEIVED]
    rw [h]
    exact (mem_setSlotCallsFrom pBig pBig.slots 1 (513, 7)).mpr (by decide)
  · omega

/-- C3 (amended): the reception loop forwards exactly the indices
1..numberOfSlots() to setSlot, in particular nothing for a 0-slot
packet and only in-range indices whenever numberOfSlots() is at most
512; it performs no clamping of its own for larger counts, but under
the transmitter's setSlot contract the Channel Buffer outside [1,512]
(index 0 and indices 513 and beyond) is never mutated. -/
theorem slot_copy_forwarding_bounds (p : PacketRead) (s : SketchState) :
    (p.result = RESULT_DMX_RECEIVED →
      (loopPacketStep p s).2.calls.map Prod.fst = List.range' 1 p.slots) ∧
    (p.slots ≤ 512 → ∀ c ∈ setSlotCalls p, 1 ≤ c.1 ∧ c.1 ≤ 512) ∧
    (p.slots = 0 → (loopPacketStep p s).1.dmx = s.dmx) ∧
    (∀ j, j = 0 ∨ 513 ≤ j → (loopPacketStep p s).1.dmx j = s.dmx j) := by
  refine ⟨?_, ?_, ?_, ?_⟩
  · intro h
    have hc : (loopPacketStep p s).2.calls = setSlotCalls p := by
      simp [loopPacketStep, h]
    rw [hc]
    exact setSlotCallsFrom_map_fst p p.slots 1
  · intro h c hc
    have hm := (mem_setSlotCallsFrom p p.slots 1 c).mp hc
    exact ⟨hm.1, by omega⟩
  · intro h
    by_cases hr : p.result = RESULT_DMX_RECEIVED
    · have hd : (loopPacketStep p s).1.dmx = copySlots p s.dmx := by
        simp [loopPacketStep, hr]
      funext j
      rw [hd, copySlots, copyUpTo_apply, if_neg (by omega)]
    · simp [loopPacketStep, hr]
  · intro j hj
    by_cases hr : p.result = RESULT_DMX_RECEIVED
    · have hd : (loopPacketStep p s).1.dmx = copySlots p s.dmx := by
        simp [loopPacketStep, hr]
      rw [hd, copySlots, copyUpTo_apply, if_neg (by omega)]
    · simp [loopPacketStep, hr]

theorem slot_copy_forwarding_bounds_witness :
    (pW.result = RESULT_DMX_RECEIVED →
      (loopPacketStep pW sW).2.calls.map Prod.fst =
        List.range' 1 pW.slots) ∧
    (pW.slots ≤ 512 → ∀ c ∈ setSlotCalls pW, 1 ≤ c.1 ∧ c.1 ≤ 512) ∧
    (pW.slots = 0 → (loopPacketStep pW sW).1.dmx = sW.dmx) ∧
    (∀ j, j = 0 ∨ 513 ≤ j →
      (loopPacketStep pW sW).1.dmx j = sW.dmx j) :=
  slot_copy_forwarding_bounds pW sW

/-- C4: on every loop iteration under DHCP addressing, the protocol
session's local-address fields are reconfigured exactly when the
lease-maintenance call reports rebind success (4) or renew success
(2), and only when the Art-Net variant is active; on maintenance
failure or no-change, and always under the sACN variant (and without
DHCP), the session is left unchanged. -/
theorem dhcp_renew_reconfigures_artnet_only (useSACN : Bool)
    (dhcpr : Nat) (net : NetInfo) (a b : Nat) (sess : Session)
    (p : PacketRead) (s : SketchState) :
    ((loopIteration true useSACN dhcpr net p sess s).1 =
      dhcpMaintainStep true useSACN dhcpr net sess) ∧
    (dhcpMaintainStep true false dhcpr net (Session.artnet a b) =
      if dhcpr = 4 ∨ dhcpr = 2 then
        Session.artnet net.localIP net.subnetMask
      else Session.artnet a b) ∧
    (dhcpMaintainStep true true dhcpr net sess = sess) ∧
    (dhcpMaintainStep false useSACN dhcpr net sess = sess) := by
  refine ⟨rfl, ?_, ?_, rfl⟩
  · by_cases hd : dhcpr = 4 ∨ dhcpr = 2 <;>
      simp [dhcpMaintainStep, setLocalIP, hd]
  · by_cases hd : dhcpr = 4 ∨ dhcpr = 2 <;> simp [dhcpMaintainStep, hd]

/-- C5: when the Art-Net variant is selected, setup() sends exactly
one Art-Net poll reply carrying the configured node name
"ArtNet2USART" before the main loop begins; when the sACN variant is
selected, setup() sends no poll reply. -/
theorem setup_poll_reply_exactly_once :
    setupPollReplies false = [⟨"ArtNet2USART"⟩] ∧
    (setupPollReplies false).length = 1 ∧
    setupPollReplies true = [] :=
  ⟨rfl, rfl, rfl⟩

/-- C6: processing the same DMX-classified packet twice in succession
leaves the Channel Buffer in the same state as processing it once:
the slot-copy step is idempotent for a fixed packet. -/
theorem dmx_copy_idempotent (p : PacketRead) (s : SketchState)
    (hres : p.result = RESULT_DMX_RECEIVED) :
    (loopPacketStep p (loopPacketStep p s).1).1.dmx =
      (loopPacketStep p s).1.dmx := by
  simp [loopPacketStep, hres, copySlots_idem]

theorem dmx_copy_idempotent_witness :
    (loopPacketStep pW (loopPacketStep pW sW).1).1.dmx =
      (loopPacketStep pW sW).1.dmx :=
  dmx_copy_idempotent pW sW rfl

/-- C7: for every DMX-classified packet, the slot copy forwards the
indices 1..numberOfSlots() in strictly increasing order, each source
slot i going to buffer index i; index 0 (the DMX start code position)
is never forwarded and never written by the reception path. -/
theorem slot_copy_increasing_order (p : PacketRead) (s : SketchState)
    (hres : p.result = RESULT_DMX_RECEIVED) :
    ((loopPacketStep p s).2.calls.map Prod.fst =
      List.range' 1 p.slots) ∧
    ((loopPacketStep p s).2.calls.map Prod.fst).Pairwise (· < ·) ∧
    (∀ c ∈ (loopPacketStep p s).2.calls,
      c.2 = p.level c.1 ∧ 1 ≤ c.1) ∧
    ((loopPacketStep p s).1.dmx 0 = s.dmx 0) := by
  have hc : (loopPacketStep p s).2.calls = setSlotCalls p := by
    simp [loopPacketStep, hres]
  have hmap : (loopPacketStep p s).2.calls.map Prod.fst =
      List.range' 1 p.slots := by
    rw [hc]
    exact setSlotCallsFrom_map_fst p p.slots 1
  refine ⟨hmap, ?_, ?_, ?_⟩
  · rw [hmap]
    exact List.pairwise_lt_range' 1 p.slots 1 (by omega)
  · intro c hcc
    rw [hc] at hcc
    have hm := (mem_setSlotCallsFrom p p.slots 1 c).mp hcc
    exact ⟨hm.2.2, hm.1⟩
  · have hd : (loopPacketStep p s).1.dmx = copySlots p s.dmx := by
      simp [loopPacketStep, hres]
    rw [hd, copySlots, copyUpTo_apply, if_neg (by omega)]

theorem slot_copy_increasing_order_witness :
    ((loopPacketStep pW sW).2.calls.map Prod.fst =
      List.range' 1 pW.slots) ∧
    ((loopPacketStep pW sW).2.calls.map Prod.fst).Pairwise (· < ·) ∧
    (∀ c ∈ (loopPacketStep pW sW).2.calls,
      c.2 = pW.level c.1 ∧ 1 ≤ c.1) ∧
    ((loopPacketStep pW sW).1.dmx 0 = sW.dmx 0) :=
  slot_copy_increasing_order pW sW rfl

/-- C8: every blinkLED invocation flips the binary monitor state (LOW
becomes HIGH, HIGH becomes LOW) and is a total function; in the main
loop it is invoked exactly once per packet whose outcome is
DMXReceived (the packets applied to the Channel Buffer) and not
otherwise. -/
theorem blink_toggles_once_per_applied_packet :
    (blinkLED LOW = HIGH ∧ blinkLED HIGH = LOW) ∧
    (∀ (p : PacketRead) (s : SketchState),
      (loopPacketStep p s).2.blinks =
        if p.result = RESULT_DMX_RECEIVED then 1 else 0) ∧
    (∀ (p : PacketRead) (s : SketchState),
      (loopPacketStep p s).1.monitorstate =
        if p.result = RESULT_DMX_RECEIVED then blinkLED s.monitorstate
        else s.monitorstate) := by
  refine ⟨⟨rfl, rfl⟩, fun p s => ?_, fun p s => ?_⟩ <;>
    by_cases h : p.result = RESULT_DMX_RECEIVED <;>
      simp [loopPacketStep, h]

/-- C10: whenever the Art-Net variant is selected at start-up,
use_multicast is forced to 0 regardless of the compile-time multicast
flag, so the UDP socket is opened in unicast/broadcast mode; the
multicast socket mode can only ever be active under the sACN variant
with multicast compiled in. -/
theorem artnet_forces_unicast :
    (∀ c : Bool, use_multicast_postSetup c false = false) ∧
    (∀ c : Bool, setupSocketMode c false = SocketMode.unicast) ∧
    (∀ c u : Bool, setupSocketMode c u = SocketMode.multicast →
      u = true ∧ c = true) ∧
    setupSocketMode true true = SocketMode.multicast := by
  decide

theorem artnet_forces_unicast_witness :
    use_multicast_postSetup true false = false ∧
    setupSocketMode true false = SocketMode.unicast :=
  ⟨artnet_forces_unicast.1 true, artnet_forces_unicast.2.1 true⟩

theorem dhcp_renew_reconfigures_artnet_only_witness :
    (dhcpMaintainStep true false 4 ⟨7, 8⟩ (Session.artnet 5 6) =
      if (4 : Nat) = 4 ∨ (4 : Nat) = 2 then Session.artnet 7 8
      else Session.artnet 5 6) ∧
    dhcpMaintainStep true true 4 ⟨7, 8⟩ Session.sacn = Session.sacn :=
  ⟨(dhcp_renew_reconfigures_artnet_only false 4 ⟨7, 8⟩ 5 6
      Session.sacn pW sW).2.1,
   (dhcp_renew_reconfigures_artnet_only true 4 ⟨7, 8⟩ 5 6
      Session.sacn pW sW).2.2.1⟩

theorem blink_toggles_once_per_applied_packet_witness :
    (loopPacketStep pW sW).2.blinks =
      if pW.result = RESULT_DMX_RECEIVED then 1 else 0 :=
  blink_toggles_once_per_applied_packet.2.1 pW sW

end LXDMXBridge
